import Mathlib

/-!
Verification development for the tiktok-analyzer-backend repository.

The repository bundles several historical variants of one Express server
(`server.js` and `src/unnamed/part_001`).  The parts relevant to the frozen
claims are embedded below as executable Lean definitions:

* `analyzeTranscriptV1` — the simple analyzer (`server.js` lines 54-79, also
  `part_001` lines 45-59);
* `analyzeTranscriptV2` — the richer analyzer (`server.js` lines 259-322);
* `resolveDirectMedia` — the yt-dlp strategy ladder (`server.js` lines 82-122);
* `aaiTranscribe` — the AssemblyAI polling loop (`server.js` lines 125-142,
  325-417, `part_001` lines 129-145; the loop body is identical in all
  variants);
* `processJob` — the job orchestrator (`server.js` lines 145-164);
* `normalizeTikTokUrl` — URL normalization (`server.js` lines 325-337,
  `part_001` lines 62-74).

Modelling conventions: JavaScript strings are Lean `String` (ASCII-relevant
behaviour is modelled exactly; JS UTF-16 `length` coincides with
`String.length` on ASCII text); JS numbers are `ℚ` with explicit decimal
rounding (`jsRound2`, matching `toFixed`; the float sums that arise here all
round to their exact decimal values); exceptions are `Except String`, with a
thrown error modelled by its rendered message; the external yt-dlp binary is a
parameter `tool : List String → Except String String` mapping an argument list
to captured stdout or a failure diagnostic; the remote transcription service
is a parameter `resp : Nat → AAIResponse` giving the body of the i-th status
poll; the SQLite row is an explicit record and each `upd.run` is a `JobWrite`.
-/

/-- JS `x || d` on an optional string: `null`/`undefined` and `""` are falsy. -/
def jsOrStr : Option String → String → String
  | none, d => d
  | some s, d => if s = "" then d else s

/-- JS `Number.prototype.toFixed(2)` followed by unary plus, modelled as exact
decimal rounding (round half up) on rationals. -/
def jsRound2 (q : ℚ) : ℚ := ((⌊q * 100 + 1 / 2⌋ : ℤ) : ℚ) / 100

/-- JS `toFixed(1)` with unary plus, as exact decimal rounding on rationals. -/
def jsRound1 (q : ℚ) : ℚ := ((⌊q * 10 + 1 / 2⌋ : ℤ) : ℚ) / 10

/-- ASCII word character, the JS regex class `\w` = `[A-Za-z0-9_]`. -/
def isWordChar (c : Char) : Bool := c.isAlphanum || c = '_'

/-- Character class of the v2 word tokens — letter, digit, apostrophe or
hyphen (letters modelled as ASCII letters; the claims only exercise ASCII
text). -/
def isW2Char (c : Char) : Bool :=
  c.isAlpha || c.isDigit || c = Char.ofNat 39 || c = '-'

/-- JS `\s` whitespace class (ASCII portion). -/
def isJsWhite (c : Char) : Bool := c.isWhitespace

/-- Lower-cased character list of a string, the model of `txt.toLowerCase()`
(exact on ASCII). -/
def lcList (s : String) : List Char := s.data.map Char.toLower

/-- A regex word boundary `\b` holds after a match iff the following character
is absent or not a word character (every vocabulary word ends in a letter). -/
def boundaryAfter : List Char → Bool
  | [] => true
  | c :: _ => !(isWordChar c)

/-- Number of maximal runs of `p`-characters; the match count of `\b\w+\b`
when `p = isWordChar`, since a maximal `\w`-run always has boundaries at both
ends.  The flag records whether the previous character satisfied `p`. -/
def countRuns (p : Char → Bool) : List Char → Bool → Nat
  | [], _ => 0
  | c :: rest, inRun =>
    if p c then (if inRun then countRuns p rest true else 1 + countRuns p rest true)
    else countRuns p rest false

/-- One alternative of a vocabulary regex: a literal word, or the v2 risky
pattern `no\s*risk`. -/
inductive KwPat
  | lit (s : List Char)
  | noRisk

/-- Try to match one pattern at the head of the list, returning the matched
characters and the remainder. -/
def runPat : KwPat → List Char → Option (List Char × List Char)
  | .lit kw, l => if kw.isPrefixOf l then some (kw, l.drop kw.length) else none
  | .noRisk, l =>
    if ['n', 'o'].isPrefixOf l then
      let r := l.drop 2
      let ws := r.takeWhile isJsWhite
      let r2 := r.drop ws.length
      if ['r', 'i', 's', 'k'].isPrefixOf r2 then
        some ('n' :: 'o' :: (ws ++ ['r', 'i', 's', 'k']), r2.drop 4)
      else none
    else none

/-- Regex alternation at one position: try each alternative in order and keep
the first whose trailing `\b` also holds (the engine backtracks into the
alternation when the boundary fails). -/
def tryPats (pats : List KwPat) (l : List Char) : Option (List Char × List Char) :=
  match pats with
  | [] => none
  | p :: ps =>
    match runPat p l with
    | some (m, r) => if boundaryAfter r then some (m, r) else tryPats ps l
    | none => tryPats ps l

/-- Global scan of `lower.match(/\b(kw1|kw2|...)\b/g)`: walk left to right; a
match may start only at a `\b` (all alternatives start with a letter, so the
previous character must not be a word character); after a match the scan
resumes past it.  Fuel is the list length, and each step consumes at least one
character, so the fuel never runs out early. -/
def scanKws (pats : List KwPat) : Nat → List Char → Bool → List String
  | 0, _, _ => []
  | _ + 1, [], _ => []
  | fuel + 1, c :: rest, prevW =>
    if prevW then scanKws pats fuel rest (isWordChar c)
    else
      match tryPats pats (c :: rest) with
      | some (m, r) => String.mk m :: scanKws pats fuel r true
      | none => scanKws pats fuel rest (isWordChar c)

/-- All boundary-delimited vocabulary matches in a string. -/
def kwMatches (pats : List KwPat) (l : List Char) : List String :=
  scanKws pats l.length l false

/-- Match count of `\b\d+(?:[.,]\d+)?\b` (v2 `numbersCount`).  Backtracking
inside the digit runs never succeeds (the boundary would face another digit),
so only the optional-group choice needs the two-way test. -/
def scanNums : Nat → List Char → Bool → Nat
  | 0, _, _ => 0
  | _ + 1, [], _ => 0
  | fuel + 1, c :: rest, prevW =>
    if prevW then scanNums fuel rest (isWordChar c)
    else if c.isDigit then
      let l := c :: rest
      let d1 := l.takeWhile Char.isDigit
      let r1 := l.drop d1.length
      match r1 with
      | [] => 1
      | sep :: r2 =>
        if sep = '.' || sep = ',' then
          let d2 := r2.takeWhile Char.isDigit
          let r3 := r2.drop d2.length
          if d2 ≠ [] && boundaryAfter r3 then 1 + scanNums fuel r3 true
          else if boundaryAfter r1 then 1 + scanNums fuel r1 true
          else scanNums fuel rest (isWordChar c)
        else if boundaryAfter r1 then 1 + scanNums fuel r1 true
        else scanNums fuel rest (isWordChar c)
    else scanNums fuel rest (isWordChar c)

def numbersTokenCount (l : List Char) : Nat := scanNums l.length l false

/-- Case-insensitive test that some keyword of the list starts at the head of
the line tail (the CTA regexes carry the `i` flag and no `\b`). -/
def kwAtHead (kws : List (List Char)) (l : List Char) : Bool :=
  kws.any fun kw => kw.isPrefixOf (l.map Char.toLower)

/-- First position of any CTA keyword in a line, returned as the line suffix
from that position — exactly the text matched by `(kw1|kw2|...)[^\n]*$` on
that line (v1 CTA regex). -/
def firstKwSuffix (kws : List (List Char)) : List Char → Option (List Char)
  | [] => none
  | c :: rest =>
    if kwAtHead kws (c :: rest) then some (c :: rest) else firstKwSuffix kws rest

/-- Whether a line contains any CTA keyword, case-insensitively — the per-line
test of `^(.*?(kw1|...).*)$` (v2 CTA regex, which captures the whole line). -/
def lineHasKw (kws : List (List Char)) (l : List Char) : Bool :=
  (firstKwSuffix kws l).isSome

/-- Split a character list at every occurrence of a separator (the model of
`s.split(sep)` for a one-character separator; structurally recursive so that
the kernel can evaluate it). -/
def splitOnCharAux (sep : Char) : List Char → List Char → List (List Char)
  | [], acc => [acc.reverse]
  | c :: rest, acc =>
    if c = sep then acc.reverse :: splitOnCharAux sep rest []
    else splitOnCharAux sep rest (c :: acc)

/-- JS `String.prototype.trim`, as whitespace stripping on character lists. -/
def trimList (l : List Char) : List Char :=
  ((l.dropWhile isJsWhite).reverse.dropWhile isJsWhite).reverse

/-- Lines of a JS string, `txt.split("\n")`. -/
def linesOf (txt : String) : List String :=
  (splitOnCharAux '\n' txt.data []).map String.mk

-- ---------- Analyzer, simple variant (server.js lines 54-79) ----------

def powerKwsV1 : List KwPat :=
  [.lit "shock".data, .lit "insane".data, .lit "secret".data, .lit "proof".data,
   .lit "hack".data, .lit "guarantee".data, .lit "science".data,
   .lit "doctor".data, .lit "study".data]

def riskyKwsV1 : List KwPat :=
  [.lit "cure".data, .lit "guarantee".data, .lit "instant".data,
   .lit "permanent".data, .lit "miracle".data]

def ctaKwsV1 : List (List Char) :=
  ["link".data, "buy".data, "shop".data, "tap".data, "order".data,
   "try".data, "today".data, "now".data]

structure MetricsV1 where
  length_chars : Nat
  length_words : Nat
  has_numbers : Bool
  power_words : List String
  risky_claims : List String
  cta_lines : List String
deriving DecidableEq, Repr

structure StructureOut where
  prehook : String
  cta : String
  has_risky_claims : Bool
deriving DecidableEq, Repr

structure AnalysisV1 where
  metrics : MetricsV1
  hook_score : ℚ
  structure_ : StructureOut
deriving DecidableEq, Repr

/-- The v1 CTA matches: per line, the regex `(link|buy|...)[^\n]*$` with flags
`gim` produces at most one match per line, namely the suffix of the line from
the leftmost keyword occurrence (case-insensitive, no word boundary). -/
def ctaLinesV1 (txt : String) : List String :=
  (linesOf txt).filterMap fun L => (firstKwSuffix ctaKwsV1 L.data).map String.mk

/-- `hasHook` of v1: the test `/^[^\n]{1,150}/.test(txt)` succeeds exactly
when the first character exists and is not a newline (the regex is anchored
only at the start, so a first line longer than 150 characters still passes). -/
def hasHookV1 (txt : String) : Bool :=
  match txt.data with
  | [] => false
  | c :: _ => c ≠ '\n'

/-- `analyzeTranscript` of the simple variant (server.js lines 54-79). -/
def analyzeTranscriptV1 (txt : String) : AnalysisV1 :=
  let lower := lcList txt
  let words := countRuns isWordChar txt.data false
  let power := kwMatches powerKwsV1 lower
  let risky := kwMatches riskyKwsV1 lower
  let ctas := ctaLinesV1 txt
  let hookScore : ℚ :=
    (if power ≠ [] then 3 / 10 else 0) +
    (if lower.any Char.isDigit then 2 / 10 else 0) +
    (if hasHookV1 txt then 3 / 10 else 0) +
    (if 30 ≤ words ∧ words ≤ 220 then 2 / 10 else 0)
  { metrics :=
      { length_chars := txt.length
        length_words := words
        has_numbers := lower.any Char.isDigit
        power_words := power
        risky_claims := risky
        cta_lines := ctas }
    hook_score := jsRound2 hookScore
    structure_ :=
      { prehook := (linesOf txt).headD ""
        cta := ctas.getLastD ""
        has_risky_claims := risky.length > 0 } }

-- ---------- Analyzer, richer variant (server.js lines 259-322) ----------

def powerKwsV2 : List KwPat :=
  [.lit "shock".data, .lit "insane".data, .lit "secret".data, .lit "proof".data,
   .lit "hack".data, .lit "guarantee".data, .lit "science".data,
   .lit "doctor".data, .lit "study".data, .lit "instant".data,
   .lit "boost".data, .lit "breakthrough".data, .lit "viral".data,
   .lit "free".data, .lit "limited".data]

def riskyKwsV2 : List KwPat :=
  [.lit "cure".data, .lit "guarantee".data, .lit "permanent".data,
   .lit "miracle".data, .lit "overnight".data, .lit "instantly".data, .noRisk]

def ctaKwsV2 : List (List Char) :=
  ["link".data, "buy".data, "shop".data, "tap".data, "order".data, "try".data,
   "subscribe".data, "follow".data, "download".data, "today".data, "now".data]

def posWords : List String :=
  ["good", "great", "amazing", "win", "love", "best", "easy", "success",
   "benefit", "fast", "wow", "wow!", "save", "safe"]

def negWords : List String :=
  ["bad", "worse", "worst", "hate", "risk", "scam", "hard", "problem",
   "pain", "danger", "fail", "loss"]

/-- Word character status of the head of a list (`false` at the end). -/
def nextIsWord : List Char → Bool
  | [] => false
  | c :: _ => isWordChar c

/-- Whether cutting the greedy character run `R` after `k` characters leaves a
`\b`: the `k`-th character and its successor (or the character following the
whole run when `k` is the full length) must differ in word-character status. -/
def goodEnd (R : List Char) (afterW : Bool) (k : Nat) : Bool :=
  decide (1 ≤ k) && decide (k ≤ R.length) &&
    (isWordChar (R.getD (k - 1) ' ') !=
      (if k < R.length then isWordChar (R.getD k ' ') else afterW))

/-- Largest prefix length of the greedy run that satisfies the trailing `\b`
(the regex engine backtracks from the greedy maximum downward); `0` when no
cut works, meaning no match at this position. -/
def bestK (R : List Char) (afterW : Bool) : Nat :=
  ((List.range (R.length + 1)).filter (goodEnd R afterW)).getLastD 0

/-- Global scan of the v2 word-token regex (word-boundary, then one or more
letters/digits/apostrophes/hyphens, then word-boundary, global unicode flags):
at positions with a leading `\b`, take the greedy class run and cut it at the
longest point with a trailing `\b`; resume after each match, else advance one
character. -/
def scanW2 : Nat → List Char → Bool → List String
  | 0, _, _ => []
  | _ + 1, [], _ => []
  | fuel + 1, c :: rest, prevW =>
    if isW2Char c && (prevW != isWordChar c) then
      let l := c :: rest
      let R := l.takeWhile isW2Char
      let afterW := nextIsWord (l.drop R.length)
      let k := bestK R afterW
      if k = 0 then scanW2 fuel rest (isWordChar c)
      else String.mk (R.take k) :: scanW2 fuel (l.drop k) (isWordChar (R.getD (k - 1) c))
    else scanW2 fuel rest (isWordChar c)

def wordsArrV2 (txt : String) : List String := scanW2 txt.data.length txt.data false

def isSentPunct (c : Char) : Bool := c = '.' || c = '!' || c = '?'

/-- `txt.split(/[.!?]+[\s\n]+/)`: a split point is a maximal run of sentence
punctuation followed by at least one whitespace character (a shorter
punctuation run cannot match, as the next character would be punctuation, not
whitespace).  The accumulator holds the current piece reversed. -/
def sentSplit : Nat → List Char → List Char → List (List Char)
  | _, acc, [] => [acc.reverse]
  | 0, acc, rest => [acc.reverse ++ rest]
  | fuel + 1, acc, c :: rest =>
    if isSentPunct c then
      let l := c :: rest
      let p := l.takeWhile isSentPunct
      let r := l.drop p.length
      let w := r.takeWhile isJsWhite
      if w ≠ [] then acc.reverse :: sentSplit fuel [] (r.drop w.length)
      else sentSplit fuel (List.reverseAux p acc) r
    else sentSplit fuel (c :: acc) rest

/-- `txt.split(/[.!?]+[\s\n]+/).map(s => s.trim()).filter(Boolean)`. -/
def sentencesArrV2 (txt : String) : List String :=
  ((sentSplit txt.data.length [] txt.data).map
    fun l => String.mk (trimList l)).filter (· ≠ "")

/-- `Math.sqrt` modelled by the integer square root.  The claims only inspect
the sentiment score through the `words = 0` branch, where the square root is
not evaluated; nonzero values of this model are an approximation of the float
computation and are not relied upon by any theorem. -/
def approxSqrt (n : Nat) : ℚ := (Nat.sqrt n : ℚ)

structure MetricsV2 where
  length_chars : Nat
  length_words : Nat
  sentences : Nat
  avg_words_per_sentence : ℚ
  numbers_count : Nat
  power_words : List String
  risky_claims : List String
  cta_lines : List String
  exclamations_count : Nat
  questions_count : Nat
  reading_time_sec : ℚ
  sentiment_score : ℚ
deriving DecidableEq, Repr

structure AnalysisV2 where
  metrics : MetricsV2
  hook_score : ℚ
  structure_ : StructureOut
deriving DecidableEq, Repr

def ctaLinesV2 (txt : String) : List String :=
  (linesOf txt).filter fun L => lineHasKw ctaKwsV2 L.data

def prehookV2 (txt : String) : String := (linesOf txt).headD ""

/-- The v2 hook signal for the opening line: non-empty first line of at most
150 characters. -/
def hasHookV2 (txt : String) : Bool :=
  (prehookV2 txt).length > 0 && (prehookV2 txt).length ≤ 150

def sentimentRaw (txt : String) : Int :=
  ((wordsArrV2 txt).map (fun w => String.mk (lcList w))).foldl
    (fun sc w =>
      (if posWords.contains w then sc + 1 else sc) +
        (if negWords.contains w then -1 else 0))
    0

/-- `analyzeTranscript` of the richer variant (server.js lines 259-322). -/
def analyzeTranscriptV2 (txt : String) : AnalysisV2 :=
  let lower := lcList txt
  let words := (wordsArrV2 txt).length
  let sentences := max 1 (sentencesArrV2 txt).length
  let avg := jsRound2 ((words : ℚ) / (sentences : ℚ))
  let numbersCount := numbersTokenCount txt.data
  let exclamations := txt.data.count '!'
  let questions := txt.data.count '?'
  let power := kwMatches powerKwsV2 lower
  let risky := kwMatches riskyKwsV2 lower
  let ctas := ctaLinesV2 txt
  let sentimentScore : ℚ :=
    if words = 0 then 0
    else jsRound2 ((sentimentRaw txt : ℚ) / approxSqrt words)
  let hookScore : ℚ :=
    (if power ≠ [] then 3 / 10 else 0) +
    (if numbersCount > 0 then 2 / 10 else 0) +
    (if hasHookV2 txt then 3 / 10 else 0) +
    (if 30 ≤ words ∧ words ≤ 220 then 2 / 10 else 0)
  { metrics :=
      { length_chars := txt.length
        length_words := words
        sentences := sentences
        avg_words_per_sentence := avg
        numbers_count := numbersCount
        power_words := power
        risky_claims := risky
        cta_lines := ctas
        exclamations_count := exclamations
        questions_count := questions
        reading_time_sec := jsRound1 ((words : ℚ) / 150 * 60)
        sentiment_score := sentimentScore }
    hook_score := jsRound2 hookScore
    structure_ :=
      { prehook := prehookV2 txt
        cta := ctas.getLastD ""
        has_risky_claims := risky.length > 0 } }

-- ---------- Media resolver (server.js lines 82-122) ----------

/-- The fixed mobile user agent passed to every yt-dlp invocation. -/
def mobileUA : String :=
  "Mozilla/5.0 (iPhone; CPU iPhone OS 16_5 like Mac OS X) AppleWebKit/605.1.15 (KHTML, like Gecko) Version/16.5 Mobile/15E148 Safari/604.1"

/-- The `common` argument list shared by all strategies. -/
def commonArgs : List String :=
  ["--no-warnings", "--geo-bypass", "--no-check-certificate",
   "--referer", "https://www.tiktok.com/", "--user-agent", mobileUA]

def extractorArgsVal : String := "tiktok:app_info=android;download_api=tiktok"

/-- Strategy 1 arguments: mobile-API extractor hint, direct URL extraction
with the default (best audio+video) format. -/
def args1 (url : String) : List String :=
  commonArgs ++ ["--extractor-args", extractorArgsVal, "-g", url]

/-- Strategy 2 arguments: generic URL extraction with the common headers and
no extractor hint. -/
def args2 (url : String) : List String := commonArgs ++ ["-g", url]

/-- Strategy 3 arguments: best-audio-only URL extraction, no extractor hint. -/
def args3 (url : String) : List String :=
  commonArgs ++ ["-g", "-f", "bestaudio/best", url]

/-- `stdout.trim().split("\n").pop()`: the last line of the trimmed output. -/
def lastLine (s : String) : String :=
  String.mk ((splitOnCharAux '\n' (trimList s.data) []).getLastD [])

/-- A strategy outcome is unusable when the subprocess failed or its output
trims to nothing. -/
def unusable (r : Except String String) : Bool :=
  match r with
  | .error _ => true
  | .ok out => lastLine out = ""

/-- `resolveDirectMedia` (server.js lines 82-122): strategy 1, then 2, then 3;
a failed or empty strategy falls through (its error is only logged); the last
strategy lets its subprocess error bubble, and empty final output raises the
generic message. -/
def resolveDirectMedia (tool : List String → Except String String)
    (tiktokUrl : String) : Except String String :=
  match tool (args1 tiktokUrl) with
  | .ok out =>
    if lastLine out ≠ "" then .ok (lastLine out)
    else
      match tool (args2 tiktokUrl) with
      | .ok out2 =>
        if lastLine out2 ≠ "" then .ok (lastLine out2)
        else
          match tool (args3 tiktokUrl) with
          | .error e => .error e
          | .ok out3 =>
            if lastLine out3 = "" then .error "Could not resolve TikTok media URL"
            else .ok (lastLine out3)
      | .error _ =>
        match tool (args3 tiktokUrl) with
        | .error e => .error e
        | .ok out3 =>
          if lastLine out3 = "" then .error "Could not resolve TikTok media URL"
          else .ok (lastLine out3)
  | .error _ =>
    match tool (args2 tiktokUrl) with
    | .ok out2 =>
      if lastLine out2 ≠ "" then .ok (lastLine out2)
      else
        match tool (args3 tiktokUrl) with
        | .error e => .error e
        | .ok out3 =>
          if lastLine out3 = "" then .error "Could not resolve TikTok media URL"
          else .ok (lastLine out3)
    | .error _ =>
      match tool (args3 tiktokUrl) with
      | .error e => .error e
      | .ok out3 =>
        if lastLine out3 = "" then .error "Could not resolve TikTok media URL"
        else .ok (lastLine out3)

/-- Modelled from the spec: the strategy ladder exactly as the claim states it
— (a) best-audio-only direct URL extraction with the mobile-API extractor
hint, (b) best audio+video with the same hint, (c) a generic extraction with
no hint, (d) direct byte download of best audio; first non-empty result wins,
last output line taken as the URL for the extraction strategies, and the
failure of the final strategy is surfaced when all are exhausted.  This
definition exists only to compare the claimed ladder with the source one. -/
def specArgsA (url : String) : List String :=
  commonArgs ++ ["--extractor-args", extractorArgsVal, "-g", "-f", "bestaudio/best", url]

def specArgsB (url : String) : List String :=
  commonArgs ++ ["--extractor-args", extractorArgsVal, "-g", url]

def specArgsC (url : String) : List String := commonArgs ++ ["-g", url]

def specArgsD (url : String) : List String :=
  commonArgs ++ ["--extractor-args", extractorArgsVal, "-f", "bestaudio/best", "-o", "-", url]

/-- Modelled from the spec: see `specArgsA`.  The claimed resolver. -/
def specResolveLadder (tool : List String → Except String String)
    (url : String) : Except String String :=
  let step (r : Except String String) (next : Except String String) :
      Except String String :=
    match r with
    | .ok out => if lastLine out ≠ "" then .ok (lastLine out) else next
    | .error _ => next
  step (tool (specArgsA url)) (step (tool (specArgsB url))
    (step (tool (specArgsC url))
      (match tool (specArgsD url) with
       | .ok bytes => .ok bytes
       | .error e => .error e)))

-- ---------- Transcription client polling (server.js lines 125-142) ----------

inductive AAIStatus
  | queued
  | processing
  | completed
  | err
deriving DecidableEq, Repr

/-- One status-poll response body from the transcription service. -/
structure AAIResponse where
  status : AAIStatus
  text : Option String := none
  error : Option String := none
deriving DecidableEq, Repr

/-- The polling loop body (server.js lines 133-141): up to `fuel` status
checks starting with poll index `i`; returns the outcome together with the
number of status checks performed.  `completed` returns `s.text || ""`,
`error` throws `s.error || "AAI error"`, and exhausted fuel throws the
timeout. -/
def aaiPollFrom (resp : Nat → AAIResponse) : Nat → Nat → Except String String × Nat
  | _, 0 => (.error "AAI timeout", 0)
  | i, fuel + 1 =>
    let s := resp i
    if s.status = AAIStatus.completed then (.ok (jsOrStr s.text ""), 1)
    else if s.status = AAIStatus.err then (.error (jsOrStr s.error "AAI error"), 1)
    else
      let r := aaiPollFrom resp (i + 1) fuel
      (r.1, r.2 + 1)

/-- `transcribeWithAAI` after the submit request: poll the status endpoint at
most 120 times. -/
def aaiTranscribe (resp : Nat → AAIResponse) : Except String String × Nat :=
  aaiPollFrom resp 0 120

/-- A response that keeps the loop polling. -/
def nonTerminal (s : AAIResponse) : Prop :=
  s.status ≠ AAIStatus.completed ∧ s.status ≠ AAIStatus.err

instance (s : AAIResponse) : Decidable (nonTerminal s) := by
  unfold nonTerminal; infer_instance

-- ---------- Job orchestrator (server.js lines 145-164) ----------

/-- One row of the `jobs` table. -/
structure JobRow where
  id : String
  tiktok_url : String
  status : String
  created_at : String
  updated_at : String
  error : Option String := none
  transcript : Option String := none
  analysis_json : Option String := none
deriving DecidableEq, Repr

/-- One `upd.run(status, updated_at, error, transcript, analysis_json, id)`
call: the UPDATE sets exactly these five columns. -/
structure JobWrite where
  status : String
  updated_at : String
  error : Option String
  transcript : Option String
  analysis_json : Option String
deriving DecidableEq, Repr

def applyWrite (r : JobRow) (w : JobWrite) : JobRow :=
  { r with
    status := w.status
    updated_at := w.updated_at
    error := w.error
    transcript := w.transcript
    analysis_json := w.analysis_json }

/-- The external steps the orchestrator can invoke. -/
inductive ExtCall
  | resolve (url : String)
  | transcribe (mediaUrl : String)
deriving DecidableEq, Repr

/-- `JSON.stringify(analysis)` for the v1 analysis — a total encoder; the
claims depend only on this string being present, never on its shape. -/
def analysisJsonV1 (a : AnalysisV1) : String :=
  String.intercalate "|" (["analysis", toString a.metrics.length_chars,
    toString a.metrics.length_words, a.structure_.prehook, a.structure_.cta] ++
    a.metrics.power_words ++ a.metrics.risky_claims ++ a.metrics.cta_lines)

/-- `processJob` (server.js lines 145-164), with the persisted row, the
resolver outcome, the transcription outcome and the `now()` clock as explicit
parameters.  Returns the final row, the ordered list of UPDATE calls, and the
ordered list of external steps invoked. -/
def processJob (row? : Option JobRow) (resolveR : Except String String)
    (transcribeR : Except String String) (nows : Nat → String) :
    Option JobRow × List JobWrite × List ExtCall :=
  match row? with
  | none => (none, [], [])
  | some row =>
    if row.status ≠ "queued" then (some row, [], [])
    else
      let w1 : JobWrite := ⟨"resolving", nows 0, none, none, none⟩
      match resolveR with
      | .error e =>
        let we : JobWrite := ⟨"error", nows 1, some e, none, none⟩
        (some (applyWrite (applyWrite row w1) we), [w1, we], [.resolve row.tiktok_url])
      | .ok mediaUrl =>
        let w2 : JobWrite := ⟨"transcribing", nows 1, none, none, none⟩
        match transcribeR with
        | .error e =>
          let we : JobWrite := ⟨"error", nows 2, some e, none, none⟩
          (some (applyWrite (applyWrite (applyWrite row w1) w2) we), [w1, w2, we],
            [.resolve row.tiktok_url, .transcribe mediaUrl])
        | .ok transcript =>
          let wd : JobWrite :=
            ⟨"completed", nows 2, none, some transcript,
              some (analysisJsonV1 (analyzeTranscriptV1 transcript))⟩
          (some (applyWrite (applyWrite (applyWrite row w1) w2) wd), [w1, w2, wd],
            [.resolve row.tiktok_url, .transcribe mediaUrl])

-- ---------- URL normalization (server.js lines 325-337) ----------

/-- Hex digit value. -/
def hexVal (c : Char) : Option Nat :=
  if '0' ≤ c ∧ c ≤ '9' then some (c.toNat - '0'.toNat)
  else if 'a' ≤ c ∧ c ≤ 'f' then some (c.toNat - 'a'.toNat + 10)
  else if 'A' ≤ c ∧ c ≤ 'F' then some (c.toNat - 'A'.toNat + 10)
  else none

/-- Percent-decoding as done by `URLSearchParams`: `+` becomes a space and
`%XY` becomes the byte `XY` (multi-byte UTF-8 sequences are modelled byte by
byte; the claims only exercise ASCII). -/
def pdecode : List Char → List Char
  | [] => []
  | '+' :: r => ' ' :: pdecode r
  | '%' :: a :: b :: r =>
    match hexVal a, hexVal b with
    | some ha, some hb => Char.ofNat (16 * ha + hb) :: pdecode r
    | _, _ => '%' :: pdecode (a :: b :: r)
  | c :: r => c :: pdecode r

/-- The `key=value` pairs of a query string (without the leading `?`), as
`URLSearchParams` builds them: split on `&`, drop empty pieces, split each
piece at its first `=`, percent-decode keys and values. -/
def searchPairs (query : String) : List (String × String) :=
  (splitOnCharAux '&' query.data []).filterMap fun piece =>
    if piece = [] then none
    else
      let l := piece
      let k := l.takeWhile (· ≠ '=')
      let v := l.drop k.length
      let v' := match v with
        | '=' :: rest => rest
        | other => other
      some (String.mk (pdecode k), String.mk (pdecode v'))

/-- `u.searchParams.get(name)`: the first value for the name, `none` when the
name is absent.  `search` is the JS `u.search`, leading `?` included. -/
def spGet (search : String) (name : String) : Option String :=
  let query := match search.data with
    | '?' :: rest => String.mk rest
    | _ => search
  ((searchPairs query).find? fun p => p.1 = name).map Prod.snd

/-- The outcome of `new URL(input)` that the normalizer inspects. -/
structure JsUrl where
  hostname : String
  pathname : String
  search : String
deriving DecidableEq, Repr

def isSchemeStart (c : Char) : Bool := c.isAlpha

def isSchemeChar (c : Char) : Bool :=
  c.isAlpha || c.isDigit || c = '+' || c = '-' || c = '.'

def schemeOk (l : List Char) : Bool :=
  match l with
  | [] => false
  | c :: rest => isSchemeStart c && rest.all isSchemeChar

def notAuthEnd (c : Char) : Bool := !(c = '/' || c = '?' || c = '#')

def notPathEnd (c : Char) : Bool := !(c = '?' || c = '#')

/-- Strip the `userinfo@` part of an authority (everything through the last
`@`). -/
def afterLastAt (l : List Char) : List Char :=
  (l.reverse.takeWhile (· ≠ '@')).reverse

/-- Model of WHATWG `new URL(input)` restricted to what the normalizer reads
(`hostname`, `pathname`, `search`).  Simplifications (documented, none
affecting the claims): no tab/newline stripping, no dot-segment or percent
normalization of the path, IPv6 brackets and port validation are not modelled
(the port is stripped at the first `:` of the host part), and a URL without
`//` after the scheme is parsed with an empty hostname and an opaque path.
Parsing fails (`none`, JS throws) without a valid scheme followed by `:`, or
when a `//` authority has an empty host. -/
def parseJsUrl (input : String) : Option JsUrl :=
  let l := input.data
  let scheme := l.takeWhile (· ≠ ':')
  let rest0 := l.dropWhile (· ≠ ':')
  if rest0 = [] then none
  else if schemeOk scheme then
    let afterColon := rest0.drop 1
    if ['/', '/'].isPrefixOf afterColon then
      let rest1 := afterColon.drop 2
      let auth := rest1.takeWhile notAuthEnd
      let rest2 := rest1.dropWhile notAuthEnd
      let host := (afterLastAt auth).takeWhile (· ≠ ':')
      if host = [] then none
      else
        let path := rest2.takeWhile notPathEnd
        let rest3 := rest2.dropWhile notPathEnd
        let query := if rest3.headD '#' = '?' then (rest3.drop 1).takeWhile (· ≠ '#')
          else []
        some
          { hostname := String.mk (host.map Char.toLower)
            pathname := String.mk (if path = [] then ['/'] else path)
            search := String.mk (if query = [] then [] else '?' :: query) }
    else
      let path := afterColon.takeWhile notPathEnd
      let rest3 := afterColon.dropWhile notPathEnd
      let query := if rest3.headD '#' = '?' then (rest3.drop 1).takeWhile (· ≠ '#')
        else []
      some
        { hostname := ""
          pathname := String.mk path
          search := String.mk (if query = [] then [] else '?' :: query) }
  else none

/-- `/tiktok\.com$/i.test(u.hostname)`. -/
def tiktokHostTest (hostname : String) : Bool :=
  "tiktok.com".data.isSuffixOf (hostname.data.map Char.toLower)

/-- First `/video/<digits># match in a list: the digits captured by
`/\/video\/(\d+)/`. -/
def findVideoDigits : List Char → Option (List Char)
  | [] => none
  | c :: rest =>
    let l := c :: rest
    if "/video/".data.isPrefixOf l then
      let ds := (l.drop 7).takeWhile Char.isDigit
      if ds = [] then findVideoDigits rest else some ds
    else findVideoDigits rest

/-- `/\/video\/\d+/.test(u.pathname)`. -/
def pathVideoTest (pathname : String) : Bool := (findVideoDigits pathname.data).isSome

/-- The digits captured by `u.search.match(/[\?&](?:video_id|item_id)=(\d+)/)`:
first position holding `?` or `&` followed by `video_id=` or `item_id=` and at
least one digit; the capture is the maximal digit run. -/
def rawSearchId : List Char → Option (List Char)
  | [] => none
  | c :: rest =>
    (if c = '?' || c = '&' then
      let tryKey (key : List Char) : Option (List Char) :=
        if (key ++ ['=']).isPrefixOf rest then
          let ds := (rest.drop (key.length + 1)).takeWhile Char.isDigit
          if ds = [] then none else some ds
        else none
      match tryKey "video_id".data with
      | some ds => some ds
      | none =>
        match tryKey "item_id".data with
        | some ds => some ds
        | none => rawSearchId rest
    else rawSearchId rest)

/-- The first truthy value of the JS `||` chain over optional strings. -/
def firstTruthy : List (Option String) → Option String
  | [] => none
  | none :: rest => firstTruthy rest
  | some s :: rest => if s = "" then firstTruthy rest else some s

/-- The identifier chosen by the normalizer: `searchParams.get("video_id") ||
searchParams.get("item_id") || pathname.match(...)?.[1] ||
search.match(...)?.[1]`. -/
def idOf (u : JsUrl) : Option String :=
  firstTruthy
    [spGet u.search "video_id", spGet u.search "item_id",
     (findVideoDigits u.pathname.data).map String.mk,
     (rawSearchId u.search.data).map String.mk]

/-- The pass-through test of the normalizer: hostname ends in `tiktok.com`
(case-insensitively) and the path contains `/video/<digits>`. -/
def isCanonicalShape (u : JsUrl) : Bool :=
  tiktokHostTest u.hostname && pathVideoTest u.pathname

/-- `normalizeTikTokUrl` (server.js lines 325-337): parse failure falls
through the empty `catch` and returns the input. -/
def normalizeTikTokUrl (input : String) : String :=
  match parseJsUrl input with
  | none => input
  | some u =>
    if isCanonicalShape u then input
    else
      match idOf u with
      | some id => "https://www.tiktok.com/video/" ++ id
      | none => input

-- ---------- Spec-modelled comparison definitions and concrete inputs ----------

/-- Modelled from the spec: the hook-score formula exactly as claim C5 words
it — 0.3 for a power word, 0.2 for a digit token, 0.3 for a non-empty first
line of length at most 150, 0.2 for a word count in [30, 220], rounded to two
decimals.  Used only to exhibit where the simple analyzer diverges from the
claim. -/
def specHookScore (txt : String) : ℚ :=
  jsRound2
    ((if kwMatches powerKwsV1 (lcList txt) ≠ [] then 3 / 10 else 0) +
     (if numbersTokenCount txt.data > 0 then 2 / 10 else 0) +
     (if ((linesOf txt).headD "").length ≥ 1 ∧ ((linesOf txt).headD "").length ≤ 150
       then 3 / 10 else 0) +
     (if 30 ≤ countRuns isWordChar txt.data false ∧
         countRuns isWordChar txt.data false ≤ 220 then 2 / 10 else 0))

/-- Modelled from the spec: claim C7 says `cta` is the last whole line in
which a call-to-action keyword appears.  Used only to exhibit where the simple
analyzer diverges from the claim. -/
def specCtaLast (txt : String) : String :=
  ((linesOf txt).filter fun L => lineHasKw ctaKwsV1 L.data).getLastD ""

/-- A tool succeeding only on an invocation carrying both the best-audio
format and the mobile-API hint — the combination the claimed first strategy
would use and no source strategy uses. -/
def toolC4 : List String → Except String String := fun args =>
  if args.contains "bestaudio/best" && args.contains extractorArgsVal then .ok "A"
  else .error "no"

/-- A tool failing URL extraction without the best-audio format and succeeding
with it: the source ladder fails strategies 1-2 and succeeds on 3. -/
def toolC4w : List String → Except String String := fun args =>
  if args.contains "bestaudio/best" then .ok "warning line\nURL3" else .error "fail"

/-- A transcription service that reports `queued` for three polls and then
completes. -/
def respC3 : Nat → AAIResponse := fun i =>
  if i < 3 then { status := .queued } else { status := .completed, text := some "final text" }

def queuedRow : JobRow :=
  { id := "a1", tiktok_url := "https://vt.tiktok.com/x", status := "queued",
    created_at := "t0", updated_at := "t0" }

def doneRow : JobRow :=
  { id := "a2", tiktok_url := "https://vt.tiktok.com/y", status := "completed",
    created_at := "t0", updated_at := "t5", transcript := some "t",
    analysis_json := some "a" }

-- ---------- Theorems ----------

/-- Evaluation rule for decimal rounding: when `q * 100` is the integer `n`,
the floor of `q * 100 + 1/2` is `n`. -/
theorem jsRound2_eval (q : ℚ) (n : ℤ) (h : q * 100 = (n : ℚ)) :
    jsRound2 q = (n : ℚ) / 100 := by
  have hhalf : ⌊(1 / 2 : ℚ)⌋ = 0 := by
    rw [Int.floor_eq_iff]
    norm_num
  rw [jsRound2, h, Int.floor_int_add, hhalf]
  norm_num

theorem jsRound1_eval (q : ℚ) (n : ℤ) (h : q * 10 = (n : ℚ)) :
    jsRound1 q = (n : ℚ) / 10 := by
  have hhalf : ⌊(1 / 2 : ℚ)⌋ = 0 := by
    rw [Int.floor_eq_iff]
    norm_num
  rw [jsRound1, h, Int.floor_int_add, hhalf]
  norm_num

theorem jsRound2_zero : jsRound2 0 = 0 := by
  rw [jsRound2_eval 0 0 (by norm_num)]; norm_num

theorem jsRound1_zero : jsRound1 0 = 0 := by
  rw [jsRound1_eval 0 0 (by norm_num)]; norm_num

theorem jsRound2_p2 : jsRound2 (1 / 5 : ℚ) = 1 / 5 := by
  rw [jsRound2_eval _ 20 (by norm_num)]; norm_num

theorem jsRound2_p3 : jsRound2 (3 / 10 : ℚ) = 3 / 10 := by
  rw [jsRound2_eval _ 30 (by norm_num)]; norm_num

theorem jsRound2_p4 : jsRound2 (2 / 5 : ℚ) = 2 / 5 := by
  rw [jsRound2_eval _ 40 (by norm_num)]; norm_num

theorem jsRound2_p5 : jsRound2 (1 / 2 : ℚ) = 1 / 2 := by
  rw [jsRound2_eval _ 50 (by norm_num)]; norm_num

theorem jsRound2_p6 : jsRound2 (3 / 5 : ℚ) = 3 / 5 := by
  rw [jsRound2_eval _ 60 (by norm_num)]; norm_num

theorem jsRound2_p7 : jsRound2 (7 / 10 : ℚ) = 7 / 10 := by
  rw [jsRound2_eval _ 70 (by norm_num)]; norm_num

theorem jsRound2_p8 : jsRound2 (4 / 5 : ℚ) = 4 / 5 := by
  rw [jsRound2_eval _ 80 (by norm_num)]; norm_num

theorem jsRound2_one : jsRound2 (1 : ℚ) = 1 := by
  rw [jsRound2_eval _ 100 (by norm_num)]; norm_num

/-- C2: for every job id, if the persisted record does not exist or its
status is anything other than exactly `queued`, `processJob` is a no-op: the
persisted state is unchanged, no UPDATE is issued and no external step is
invoked. -/
theorem C2_processJob_noop :
    ∀ (resolveR transcribeR : Except String String) (nows : Nat → String),
      processJob none resolveR transcribeR nows = (none, [], []) ∧
      ∀ row : JobRow, row.status ≠ "queued" →
        processJob (some row) resolveR transcribeR nows = (some row, [], []) := by
  intro r t nows
  refine ⟨rfl, ?_⟩
  intro row h
  simp [processJob, h]

/-- Witness for C2 at a concrete completed row. -/
theorem C2_witness :
    processJob (some doneRow) (.ok "m") (.ok "txt") (fun _ => "ts") =
      (some doneRow, [], []) :=
  (C2_processJob_noop _ _ _).2 doneRow (by decide)

/-- C8: the sentence count used by the richer analyzer is always at least 1
(`Math.max(1, ...)`), in particular 1 on empty text, so the average
words-per-sentence computation divides by a nonzero count; the average is the
word count divided by that sentence count, rounded to two decimals. -/
theorem C8_sentence_floor :
    ∀ txt : String,
      1 ≤ (analyzeTranscriptV2 txt).metrics.sentences ∧
      (analyzeTranscriptV2 txt).metrics.avg_words_per_sentence =
        jsRound2 (((analyzeTranscriptV2 txt).metrics.length_words : ℚ) /
          ((analyzeTranscriptV2 txt).metrics.sentences : ℚ)) ∧
      (analyzeTranscriptV2 "").metrics.sentences = 1 := by
  intro txt
  refine ⟨?_, rfl, by decide⟩
  have h : (analyzeTranscriptV2 txt).metrics.sentences =
      max 1 (sentencesArrV2 txt).length := rfl
  rw [h]
  exact Nat.le_max_left _ _

/-- C6 counterexample: on empty input the richer analyzer reports a sentence
count of 1, not 0 as the claim states. -/
theorem C6_counterexample :
    (analyzeTranscriptV2 "").metrics.sentences = 1 ∧
    (analyzeTranscriptV2 "").metrics.sentences ≠ 0 := by
  decide

/-- C6 amended: the analyzer is total and deterministic, and on empty input
every metric is zero and the hook score 0.0 — except the sentence count,
which is floored at 1. -/
theorem C6_empty_amended :
    (∀ t : String, analyzeTranscriptV2 t = analyzeTranscriptV2 t ∧
      analyzeTranscriptV1 t = analyzeTranscriptV1 t) ∧
    (analyzeTranscriptV2 "").metrics.length_chars = 0 ∧
    (analyzeTranscriptV2 "").metrics.length_words = 0 ∧
    (analyzeTranscriptV2 "").metrics.sentences = 1 ∧
    (analyzeTranscriptV2 "").metrics.avg_words_per_sentence = 0 ∧
    (analyzeTranscriptV2 "").metrics.numbers_count = 0 ∧
    (analyzeTranscriptV2 "").metrics.power_words = [] ∧
    (analyzeTranscriptV2 "").metrics.risky_claims = [] ∧
    (analyzeTranscriptV2 "").metrics.cta_lines = [] ∧
    (analyzeTranscriptV2 "").metrics.exclamations_count = 0 ∧
    (analyzeTranscriptV2 "").metrics.questions_count = 0 ∧
    (analyzeTranscriptV2 "").metrics.reading_time_sec = 0 ∧
    (analyzeTranscriptV2 "").metrics.sentiment_score = 0 ∧
    (analyzeTranscriptV2 "").hook_score = 0 ∧
    (analyzeTranscriptV2 "").structure_ = ⟨"", "", false⟩ ∧
    (analyzeTranscriptV1 "").metrics =
      ⟨0, 0, false, [], [], []⟩ ∧
    (analyzeTranscriptV1 "").hook_score = 0 ∧
    (analyzeTranscriptV1 "").structure_ = ⟨"", "", false⟩ := by
  refine ⟨fun t => ⟨rfl, rfl⟩, by decide, by decide, by decide, ?_, by decide,
    by decide, by decide, by decide, by decide, by decide, ?_, ?_, ?_, by decide,
    by decide, ?_, by decide⟩
  · show jsRound2 (((wordsArrV2 "").length : ℚ) /
      ((max 1 (sentencesArrV2 "").length : ℕ) : ℚ)) = 0
    rw [show (wordsArrV2 "").length = 0 from by decide,
      show (sentencesArrV2 "").length = 0 from by decide]
    norm_num [jsRound2_zero]
  · show jsRound1 (((wordsArrV2 "").length : ℚ) / 150 * 60) = 0
    rw [show (wordsArrV2 "").length = 0 from by decide]
    norm_num [jsRound1_zero]
  · show (if (wordsArrV2 "").length = 0 then (0 : ℚ)
      else jsRound2 ((sentimentRaw "" : ℚ) / approxSqrt (wordsArrV2 "").length)) = 0
    rw [if_pos (by decide)]
  · show jsRound2
      ((if kwMatches powerKwsV2 (lcList "") ≠ [] then (3 : ℚ) / 10 else 0) +
       (if numbersTokenCount "".data > 0 then (2 : ℚ) / 10 else 0) +
       (if hasHookV2 "" = true then (3 : ℚ) / 10 else 0) +
       (if 30 ≤ (wordsArrV2 "").length ∧ (wordsArrV2 "").length ≤ 220
         then (2 : ℚ) / 10 else 0)) = 0
    rw [if_neg (by decide), if_neg (by decide), if_neg (by decide), if_neg (by decide)]
    norm_num [jsRound2_zero]
  · show jsRound2
      ((if kwMatches powerKwsV1 (lcList "") ≠ [] then (3 : ℚ) / 10 else 0) +
       (if (lcList "").any Char.isDigit = true then (2 : ℚ) / 10 else 0) +
       (if hasHookV1 "" = true then (3 : ℚ) / 10 else 0) +
       (if 30 ≤ countRuns isWordChar "".data false ∧
           countRuns isWordChar "".data false ≤ 220 then (2 : ℚ) / 10 else 0)) = 0
    rw [if_neg (by decide), if_neg (by decide), if_neg (by decide), if_neg (by decide)]
    norm_num [jsRound2_zero]

/-- C7 counterexample: in the simple analyzer the stored CTA match for the
line `please buy this` is the suffix `buy this` starting at the keyword, not
the whole matched line as the claim states (the spec-side computation of the
last matching line yields the full line). -/
theorem C7_counterexample :
    (analyzeTranscriptV1 "please buy this").structure_.cta = "buy this" ∧
    specCtaLast "please buy this" = "please buy this" ∧
    "buy this" ≠ "please buy this" := by
  decide

/-- C7 amended: in the richer analyzer the CTA matches are exactly the lines
containing a keyword (case-insensitive, anywhere in the line), `cta` is the
last of them and `prehook` the first line; in the simple analyzer each
matched line contributes only its suffix from the first keyword occurrence,
and `cta` is the last such suffix. -/
theorem C7_cta_amended :
    ∀ txt : String,
      (analyzeTranscriptV2 txt).structure_.cta =
        ((linesOf txt).filter fun L => lineHasKw ctaKwsV2 L.data).getLastD "" ∧
      (analyzeTranscriptV2 txt).structure_.prehook = (linesOf txt).headD "" ∧
      (analyzeTranscriptV1 txt).structure_.cta =
        ((linesOf txt).filterMap
          fun L => (firstKwSuffix ctaKwsV1 L.data).map String.mk).getLastD "" ∧
      (analyzeTranscriptV1 txt).structure_.prehook = (linesOf txt).headD "" :=
  fun _ => ⟨rfl, rfl, rfl, rfl⟩

/-- The polling loop performs at most `fuel` status checks. -/
theorem aaiPollFrom_count_le (resp : Nat → AAIResponse) :
    ∀ fuel i, (aaiPollFrom resp i fuel).2 ≤ fuel := by
  intro fuel
  induction fuel with
  | zero => intro i; simp [aaiPollFrom]
  | succ n ih =>
    intro i
    simp only [aaiPollFrom]
    split_ifs
    · simp
    · simp
    · simpa using Nat.succ_le_succ (ih (i + 1))

/-- Skipping a non-terminal prefix: if the first `n` polled responses keep the
loop going, the loop result is the result from position `i + n` with `n` fewer
units of fuel, and `n` more status checks. -/
theorem aaiPollFrom_skip (resp : Nat → AAIResponse) :
    ∀ n fuel i, (∀ j, j < n → nonTerminal (resp (i + j))) → n ≤ fuel →
      aaiPollFrom resp i fuel =
        ((aaiPollFrom resp (i + n) (fuel - n)).1,
          (aaiPollFrom resp (i + n) (fuel - n)).2 + n) := by
  intro n
  induction n with
  | zero => intro fuel i _ _; simp
  | succ m ih =>
    intro fuel i h hle
    obtain ⟨f, rfl⟩ : ∃ f, fuel = f + 1 := ⟨fuel - 1, by omega⟩
    have h0 : nonTerminal (resp i) := by simpa using h 0 (Nat.succ_pos m)
    have hrec := ih f (i + 1)
      (fun j hj => by
        have := h (j + 1) (by omega)
        simpa [Nat.add_assoc, Nat.add_comm 1 j] using this)
      (by omega)
    simp only [aaiPollFrom, if_neg h0.1, if_neg h0.2]
    rw [hrec]
    have e1 : i + 1 + m = i + (m + 1) := by omega
    have e2 : f - m = f + 1 - (m + 1) := by omega
    rw [e1, e2]
    simp [Nat.add_assoc]

/-- C3: the transcription client polls the status endpoint at most 120 times;
if poll `k` (1-based, `k ≤ 120`) returns the first terminal response, a
`completed` response makes the client return its text (empty string when the
service returns none) after exactly `k` checks, and an `error` response makes
it fail with the remote message after exactly `k` checks; when no terminal
response occurs in 120 polls it fails with the timeout message after exactly
120 checks. -/
theorem C3_polling :
    ∀ resp : Nat → AAIResponse,
      (aaiTranscribe resp).2 ≤ 120 ∧
      (∀ k, 1 ≤ k → k ≤ 120 → (∀ j, j < k - 1 → nonTerminal (resp j)) →
        ((resp (k - 1)).status = AAIStatus.completed →
          aaiTranscribe resp = (.ok (jsOrStr (resp (k - 1)).text ""), k)) ∧
        (∀ m, (resp (k - 1)).status = AAIStatus.err → (resp (k - 1)).error = some m →
          m ≠ "" → aaiTranscribe resp = (.error m, k))) ∧
      ((∀ j, j < 120 → nonTerminal (resp j)) →
        aaiTranscribe resp = (.error "AAI timeout", 120)) := by
  intro resp
  refine ⟨aaiPollFrom_count_le resp 120 0, ?_, ?_⟩
  · intro k hk1 hk120 hpre
    have hskip := aaiPollFrom_skip resp (k - 1) 120 0
      (fun j hj => by simpa using hpre j hj) (by omega)
    obtain ⟨f, hf⟩ : ∃ f, 120 - (k - 1) = f + 1 := ⟨120 - k, by omega⟩
    constructor
    · intro hc
      rw [aaiTranscribe, hskip, hf]
      simp [aaiPollFrom, hc, Prod.mk.injEq]
      omega
    · intro m hs he hm
      rw [aaiTranscribe, hskip, hf]
      simp [aaiPollFrom, hs, he, jsOrStr, hm, Prod.mk.injEq]
      omega
  · intro hall
    have hskip := aaiPollFrom_skip resp 120 120 0 (fun j hj => by simpa using hall j hj)
      (le_refl _)
    rw [aaiTranscribe, hskip]
    simp [aaiPollFrom]

/-- Witness for C3: three `queued` responses then a `completed` one give the
final text after exactly four status checks; the claim instance from the spec
test sentence. -/
theorem C3_witness : aaiTranscribe respC3 = (.ok "final text", 4) := by
  have h := ((C3_polling respC3).2.1 4 (by norm_num) (by norm_num)
    (by decide)).1 (by decide)
  simpa [respC3, jsOrStr] using h

/-- C1: every UPDATE issued by `processJob` satisfies the record invariant —
transcript and analysis are both null or both non-null, the error column is
non-null exactly when the status is `error`, and a non-null transcript occurs
only with status `completed`; moreover an exception from either external step
leaves the final row in status `error` carrying the exception message with
null transcript/analysis, and success persists `completed` together with the
transcript and analysis in one single update. -/
theorem C1_orchestrator_invariant :
    ∀ (row? : Option JobRow) (r t : Except String String) (nows : Nat → String),
      (∀ w ∈ (processJob row? r t nows).2.1,
        ((w.transcript = none) ↔ (w.analysis_json = none)) ∧
        ((w.error ≠ none) ↔ w.status = "error") ∧
        (w.transcript ≠ none → w.status = "completed")) ∧
      (∀ row, row? = some row → row.status = "queued" →
        (∀ e, r = .error e →
          (processJob row? r t nows).1 =
            some { row with
                    status := "error", updated_at := nows 1,
                    error := some e, transcript := none,
                    analysis_json := none }) ∧
        (∀ m e, r = .ok m → t = .error e →
          (processJob row? r t nows).1 =
            some { row with
                    status := "error", updated_at := nows 2,
                    error := some e, transcript := none,
                    analysis_json := none }) ∧
        (∀ m tr, r = .ok m → t = .ok tr →
          (processJob row? r t nows).1 =
            some { row with
                    status := "completed", updated_at := nows 2,
                    error := none, transcript := some tr,
                    analysis_json :=
                      some (analysisJsonV1 (analyzeTranscriptV1 tr)) } ∧
          ((processJob row? r t nows).2.1).getLast? =
            some ⟨"completed", nows 2, none, some tr,
              some (analysisJsonV1 (analyzeTranscriptV1 tr))⟩)) := by
  intro row? r t nows
  match row? with
  | none => exact ⟨by simp [processJob], by intro row h; cases h⟩
  | some row =>
    by_cases hq : row.status = "queued"
    · match r with
      | .error e =>
        refine ⟨?_, ?_⟩
        · intro w hw
          simp [processJob, hq] at hw
          rcases hw with rfl | rfl
          · refine ⟨by simp, by simp, by simp⟩
          · refine ⟨by simp, by simp, by simp⟩
        · intro row' hr hq'
          cases hr
          refine ⟨?_, ?_, ?_⟩
          · intro e' he
            cases he
            simp [processJob, hq, applyWrite]
          · intro m e' hok _
            cases hok
          · intro m tr hok _
            cases hok
      | .ok mediaUrl =>
        match t with
        | .error e =>
          refine ⟨?_, ?_⟩
          · intro w hw
            simp [processJob, hq] at hw
            rcases hw with rfl | rfl | rfl
            · refine ⟨by simp, by simp, by simp⟩
            · refine ⟨by simp, by simp, by simp⟩
            · refine ⟨by simp, by simp, by simp⟩
          · intro row' hr hq'
            cases hr
            refine ⟨?_, ?_, ?_⟩
            · intro e' he
              cases he
            · intro m e' hok het
              cases hok
              cases het
              simp [processJob, hq, applyWrite]
            · intro m tr _ het
              cases het
        | .ok tr =>
          refine ⟨?_, ?_⟩
          · intro w hw
            simp [processJob, hq] at hw
            rcases hw with rfl | rfl | rfl
            · refine ⟨by simp, by simp, by simp⟩
            · refine ⟨by simp, by simp, by simp⟩
            · refine ⟨by simp, by simp, by simp⟩
          · intro row' hr hq'
            cases hr
            refine ⟨?_, ?_, ?_⟩
            · intro e' he
              cases he
            · intro m e' _ het
              cases het
            · intro m tr' hok het
              cases hok
              cases het
              exact ⟨by simp [processJob, hq, applyWrite], by simp [processJob, hq]⟩
    · refine ⟨?_, ?_⟩
      · intro w hw
        simp [processJob, hq] at hw
      · intro row' hr hq'
        cases hr
        exact absurd hq' hq

/-- Witness for C1: a queued row whose resolution step throws ends in status
`error` with the message persisted and null transcript/analysis. -/
theorem C1_witness :
    (processJob (some queuedRow) (.error "yt-dlp exited with code 1") (.ok "")
      (fun _ => "ts")).1 =
      some { queuedRow with
              status := "error", updated_at := "ts",
              error := some "yt-dlp exited with code 1", transcript := none,
              analysis_json := none } :=
  ((C1_orchestrator_invariant (some queuedRow) _ _ _).2 queuedRow rfl rfl).1 _ rfl

/-- C4 counterexample: a tool that succeeds exactly on an invocation carrying
both the best-audio format and the mobile-API hint.  Under the claimed ladder
the first strategy uses that combination and the resolver would succeed with
its output; the source resolver never issues that combination, so every source
strategy fails and the resolver returns the last diagnostic. -/
theorem C4_counterexample :
    resolveDirectMedia toolC4 "https://www.tiktok.com/video/1" = .error "no" ∧
    specResolveLadder toolC4 "https://www.tiktok.com/video/1" = .ok "A" := by
  constructor <;> rfl

/-- C4 amended: the source resolver tries, in order, (1) direct URL
extraction in the default best audio+video format with the mobile-API hint,
(2) generic URL extraction with no hint, (3) best-audio-only URL extraction
with no hint; each later strategy runs only when every earlier one failed or
produced empty output, the first usable output wins with its last line as the
URL, earlier failures are not surfaced, a subprocess error of the final
strategy is surfaced as the failure, and empty final output yields the generic
resolution failure message. -/
theorem C4_ladder_amended :
    ∀ (tool : List String → Except String String) (url : String),
      (∀ out, tool (args1 url) = .ok out → lastLine out ≠ "" →
        resolveDirectMedia tool url = .ok (lastLine out)) ∧
      (unusable (tool (args1 url)) = true →
        ∀ out, tool (args2 url) = .ok out → lastLine out ≠ "" →
          resolveDirectMedia tool url = .ok (lastLine out)) ∧
      (unusable (tool (args1 url)) = true → unusable (tool (args2 url)) = true →
        (∀ e, tool (args3 url) = .error e → resolveDirectMedia tool url = .error e) ∧
        (∀ out, tool (args3 url) = .ok out →
          resolveDirectMedia tool url =
            if lastLine out = "" then .error "Could not resolve TikTok media URL"
            else .ok (lastLine out))) := by
  intro tool url
  refine ⟨?_, ?_, ?_⟩
  · intro out h1 hne
    simp [resolveDirectMedia, h1, hne]
  · intro hu1 out h2 hne
    match h1 : tool (args1 url) with
    | .error e1 => simp [resolveDirectMedia, h1, h2, hne]
    | .ok out1 =>
      have he1 : lastLine out1 = "" := by simpa [unusable, h1] using hu1
      simp [resolveDirectMedia, h1, h2, he1, hne]
  · intro hu1 hu2
    constructor
    · intro e h3
      match h1 : tool (args1 url) with
      | .error e1 =>
        match h2 : tool (args2 url) with
        | .error e2 => simp [resolveDirectMedia, h1, h2, h3]
        | .ok out2 =>
          have he2 : lastLine out2 = "" := by simpa [unusable, h2] using hu2
          simp [resolveDirectMedia, h1, h2, he2, h3]
      | .ok out1 =>
        have he1 : lastLine out1 = "" := by simpa [unusable, h1] using hu1
        match h2 : tool (args2 url) with
        | .error e2 => simp [resolveDirectMedia, h1, he1, h2, h3]
        | .ok out2 =>
          have he2 : lastLine out2 = "" := by simpa [unusable, h2] using hu2
          simp [resolveDirectMedia, h1, he1, h2, he2, h3]
    · intro out h3
      match h1 : tool (args1 url) with
      | .error e1 =>
        match h2 : tool (args2 url) with
        | .error e2 => simp [resolveDirectMedia, h1, h2, h3]
        | .ok out2 =>
          have he2 : lastLine out2 = "" := by simpa [unusable, h2] using hu2
          simp [resolveDirectMedia, h1, h2, he2, h3]
      | .ok out1 =>
        have he1 : lastLine out1 = "" := by simpa [unusable, h1] using hu1
        match h2 : tool (args2 url) with
        | .error e2 => simp [resolveDirectMedia, h1, he1, h2, h3]
        | .ok out2 =>
          have he2 : lastLine out2 = "" := by simpa [unusable, h2] using hu2
          simp [resolveDirectMedia, h1, he1, h2, he2, h3]

/-- Witness for C4: the spec test scenario — the tool fails the first two
strategies and succeeds on the third; that output wins, its last line is the
returned URL, and the earlier failures are not surfaced. -/
theorem C4_witness : resolveDirectMedia toolC4w "u" = .ok "URL3" := by
  have h := (((C4_ladder_amended toolC4w "u").2.2 rfl rfl).2
    "warning line\nURL3" rfl)
  simpa using h

/-- Rounding to two decimals is the identity on every value the four-signal
hook sum can take, and the sum lies in [0, 1]. -/
theorem hookSum_eval (a b c d : Prop) [Decidable a] [Decidable b] [Decidable c]
    [Decidable d] :
    jsRound2 ((if a then (3 : ℚ) / 10 else 0) + (if b then (2 : ℚ) / 10 else 0) +
        (if c then (3 : ℚ) / 10 else 0) + (if d then (2 : ℚ) / 10 else 0)) =
      ((if a then (3 : ℚ) / 10 else 0) + (if b then (2 : ℚ) / 10 else 0) +
        (if c then (3 : ℚ) / 10 else 0) + (if d then (2 : ℚ) / 10 else 0)) ∧
    0 ≤ ((if a then (3 : ℚ) / 10 else 0) + (if b then (2 : ℚ) / 10 else 0) +
        (if c then (3 : ℚ) / 10 else 0) + (if d then (2 : ℚ) / 10 else 0)) ∧
    ((if a then (3 : ℚ) / 10 else 0) + (if b then (2 : ℚ) / 10 else 0) +
        (if c then (3 : ℚ) / 10 else 0) + (if d then (2 : ℚ) / 10 else 0)) ≤ 1 := by
  split_ifs <;>
    refine ⟨?_, by norm_num, by norm_num⟩ <;>
      norm_num [jsRound2_zero, jsRound2_p2, jsRound2_p3, jsRound2_p4, jsRound2_p5,
        jsRound2_p6, jsRound2_p7, jsRound2_p8, jsRound2_one]

set_option maxRecDepth 40000 in
/-- C5 counterexample: on a single 151-character line the simple analyzer
hook score is 0.3 (its first-line signal ignores the 150-character cap), while
the formula of the claim gives 0. -/
theorem C5_counterexample :
    (analyzeTranscriptV1 (String.mk (List.replicate 151 'a'))).hook_score = 3 / 10 ∧
    specHookScore (String.mk (List.replicate 151 'a')) = 0 := by
  have h1 : kwMatches powerKwsV1 (lcList (String.mk (List.replicate 151 'a'))) = [] := by
    decide
  have h2 : (lcList (String.mk (List.replicate 151 'a'))).any Char.isDigit = false := by
    decide
  have h3 : hasHookV1 (String.mk (List.replicate 151 'a')) = true := by decide
  have h4 : countRuns isWordChar (String.mk (List.replicate 151 'a')).data false = 1 := by
    decide
  have h5 : numbersTokenCount (String.mk (List.replicate 151 'a')).data = 0 := by decide
  have h6 : ((linesOf (String.mk (List.replicate 151 'a'))).headD "").length = 151 := by
    decide
  constructor
  · simp only [analyzeTranscriptV1, h1, h2, h3, h4]
    norm_num [jsRound2_p3]
  · simp only [specHookScore, h1, h4, h5, h6]
    norm_num [jsRound2_zero]

/-- C5 amended: for the richer analyzer the claim holds exactly — the hook
score is the weighted sum of the four signals (power word present 0.3, digit
token present 0.2, non-empty first line of at most 150 characters 0.3, word
count in [30, 220] 0.2) and lies in [0, 1]; in the simple analyzer the same
holds except that its first-line signal fires on any non-empty first line
regardless of length and its digit signal fires on any digit character. -/
theorem C5_hook_amended :
    ∀ txt : String,
      (analyzeTranscriptV2 txt).hook_score =
        (if kwMatches powerKwsV2 (lcList txt) ≠ [] then (3 : ℚ) / 10 else 0) +
        (if numbersTokenCount txt.data > 0 then (2 : ℚ) / 10 else 0) +
        (if hasHookV2 txt = true then (3 : ℚ) / 10 else 0) +
        (if 30 ≤ (wordsArrV2 txt).length ∧ (wordsArrV2 txt).length ≤ 220
          then (2 : ℚ) / 10 else 0) ∧
      0 ≤ (analyzeTranscriptV2 txt).hook_score ∧
      (analyzeTranscriptV2 txt).hook_score ≤ 1 ∧
      (analyzeTranscriptV1 txt).hook_score =
        (if kwMatches powerKwsV1 (lcList txt) ≠ [] then (3 : ℚ) / 10 else 0) +
        (if (lcList txt).any Char.isDigit = true then (2 : ℚ) / 10 else 0) +
        (if hasHookV1 txt = true then (3 : ℚ) / 10 else 0) +
        (if 30 ≤ countRuns isWordChar txt.data false ∧
            countRuns isWordChar txt.data false ≤ 220 then (2 : ℚ) / 10 else 0) ∧
      0 ≤ (analyzeTranscriptV1 txt).hook_score ∧
      (analyzeTranscriptV1 txt).hook_score ≤ 1 := by
  intro txt
  have h2 := hookSum_eval (kwMatches powerKwsV2 (lcList txt) ≠ [])
    (numbersTokenCount txt.data > 0) (hasHookV2 txt = true)
    (30 ≤ (wordsArrV2 txt).length ∧ (wordsArrV2 txt).length ≤ 220)
  have h1 := hookSum_eval (kwMatches powerKwsV1 (lcList txt) ≠ [])
    ((lcList txt).any Char.isDigit = true) (hasHookV1 txt = true)
    (30 ≤ countRuns isWordChar txt.data false ∧
      countRuns isWordChar txt.data false ≤ 220)
  have e2 : (analyzeTranscriptV2 txt).hook_score =
      jsRound2
        ((if kwMatches powerKwsV2 (lcList txt) ≠ [] then (3 : ℚ) / 10 else 0) +
         (if numbersTokenCount txt.data > 0 then (2 : ℚ) / 10 else 0) +
         (if hasHookV2 txt = true then (3 : ℚ) / 10 else 0) +
         (if 30 ≤ (wordsArrV2 txt).length ∧ (wordsArrV2 txt).length ≤ 220
           then (2 : ℚ) / 10 else 0)) := rfl
  have e1 : (analyzeTranscriptV1 txt).hook_score =
      jsRound2
        ((if kwMatches powerKwsV1 (lcList txt) ≠ [] then (3 : ℚ) / 10 else 0) +
         (if (lcList txt).any Char.isDigit = true then (2 : ℚ) / 10 else 0) +
         (if hasHookV1 txt = true then (3 : ℚ) / 10 else 0) +
         (if 30 ≤ countRuns isWordChar txt.data false ∧
             countRuns isWordChar txt.data false ≤ 220 then (2 : ℚ) / 10 else 0)) := rfl
  refine ⟨e2.trans h2.1, ?_, ?_, e1.trans h1.1, ?_, ?_⟩
  · rw [e2, h2.1]; exact h2.2.1
  · rw [e2, h2.1]; exact h2.2.2
  · rw [e1, h1.1]; exact h1.2.1
  · rw [e1, h1.1]; exact h1.2.2

/-- C9 counterexample: for `https://example.com/x?video_id=abc` the query
parameter value `abc` contains no digit, so no numeric identifier exists and
the claim requires the input to be returned unchanged; the source rewrites to
the canonical URL built from the non-numeric value. -/
theorem C9_counterexample :
    normalizeTikTokUrl "https://example.com/x?video_id=abc" =
      "https://www.tiktok.com/video/abc" ∧
    normalizeTikTokUrl "https://example.com/x?video_id=abc" ≠
      "https://example.com/x?video_id=abc" ∧
    (∀ c ∈ "abc".data, ¬ c.isDigit) := by
  refine ⟨rfl, by decide, by decide⟩

/-- C9 amended: normalization is total and best-effort — unparseable input
and canonical-shaped input are returned unchanged, and otherwise the first
truthy identifier among the `video_id`/`item_id` query parameters (used as-is,
even when not numeric), the `/video/<digits>` path segment, and the raw-query
digit fallback determines the rewritten canonical URL; when none exists the
input is returned unchanged. -/
theorem C9_normalize_amended :
    ∀ s : String,
      (parseJsUrl s = none → normalizeTikTokUrl s = s) ∧
      (∀ u, parseJsUrl s = some u → isCanonicalShape u = true →
        normalizeTikTokUrl s = s) ∧
      (∀ u, parseJsUrl s = some u → isCanonicalShape u = false → idOf u = none →
        normalizeTikTokUrl s = s) ∧
      (∀ u i, parseJsUrl s = some u → isCanonicalShape u = false → idOf u = some i →
        normalizeTikTokUrl s = "https://www.tiktok.com/video/" ++ i) := by
  intro s
  refine ⟨?_, ?_, ?_, ?_⟩
  · intro h
    simp [normalizeTikTokUrl, h]
  · intro u hp hc
    simp [normalizeTikTokUrl, hp, hc]
  · intro u hp hc hi
    simp [normalizeTikTokUrl, hp, hc, hi]
  · intro u i hp hc hi
    simp [normalizeTikTokUrl, hp, hc, hi]

/-- Witness for C9: a canonical-shaped URL passes through unchanged. -/
theorem C9_witness :
    normalizeTikTokUrl "https://www.tiktok.com/@u/video/42" =
      "https://www.tiktok.com/@u/video/42" :=
  (C9_normalize_amended _).2.1 ⟨"www.tiktok.com", "/@u/video/42", ""⟩ rfl rfl

/-- If `takeWhile` stops inside the first list, appending more input changes
nothing. -/
theorem takeWhile_append_of_ne {α} {p : α → Bool} :
    ∀ (l₁ l₂ : List α), l₁.takeWhile p ≠ l₁ →
      (l₁ ++ l₂).takeWhile p = l₁.takeWhile p := by
  intro l₁
  induction l₁ with
  | nil => intro l₂ h; simp at h
  | cons c t ih =>
    intro l₂ h
    by_cases hc : p c
    · rw [List.cons_append, List.takeWhile_cons, if_pos hc, List.takeWhile_cons,
        if_pos hc]
      rw [List.takeWhile_cons, if_pos hc] at h
      have ht : t.takeWhile p ≠ t := fun he => h (by rw [he])
      rw [ih l₂ ht]
    · rw [List.cons_append, List.takeWhile_cons, if_neg hc, List.takeWhile_cons,
        if_neg hc]

/-- If `takeWhile` stops inside the first list, `dropWhile` keeps the appended
tail intact. -/
theorem dropWhile_append_of_ne {α} {p : α → Bool} :
    ∀ (l₁ l₂ : List α), l₁.takeWhile p ≠ l₁ →
      (l₁ ++ l₂).dropWhile p = l₁.dropWhile p ++ l₂ := by
  intro l₁
  induction l₁ with
  | nil => intro l₂ h; simp at h
  | cons c t ih =>
    intro l₂ h
    by_cases hc : p c
    · rw [List.cons_append, List.dropWhile_cons, if_pos hc, List.dropWhile_cons,
        if_pos hc]
      rw [List.takeWhile_cons, if_pos hc] at h
      exact ih l₂ fun he => h (by rw [he])
    · rw [List.cons_append, List.dropWhile_cons, if_neg hc, List.dropWhile_cons,
        if_neg hc, List.cons_append]

/-- If every element of the first list passes, `takeWhile` continues into the
second list. -/
theorem takeWhile_append_of_all {α} {p : α → Bool} :
    ∀ (l₁ l₂ : List α), (∀ c ∈ l₁, p c = true) →
      (l₁ ++ l₂).takeWhile p = l₁ ++ l₂.takeWhile p := by
  intro l₁
  induction l₁ with
  | nil => intro l₂ _; simp
  | cons c t ih =>
    intro l₂ h
    rw [List.cons_append, List.takeWhile_cons, if_pos (h c (by simp)),
      ih l₂ (fun x hx => h x (by simp [hx])), List.cons_append]

/-- If every element of the first list passes, `dropWhile` discards it
entirely. -/
theorem dropWhile_append_of_all {α} {p : α → Bool} :
    ∀ (l₁ l₂ : List α), (∀ c ∈ l₁, p c = true) →
      (l₁ ++ l₂).dropWhile p = l₂.dropWhile p := by
  intro l₁
  induction l₁ with
  | nil => intro l₂ _; simp
  | cons c t ih =>
    intro l₂ h
    rw [List.cons_append, List.dropWhile_cons, if_pos (h c (by simp))]
    exact ih l₂ fun x hx => h x (by simp [hx])

/-- A digit character is neither `?` nor `#`, so it never ends a path. -/
theorem digit_notPathEnd {c : Char} (h : c.isDigit = true) : notPathEnd c = true := by
  have h1 : c ≠ '?' := by rintro rfl; exact absurd h (by decide)
  have h2 : c ≠ '#' := by rintro rfl; exact absurd h (by decide)
  simp [notPathEnd, h1, h2]

/-- Parsing the canonical rewrite output: for a digit-only identifier the
parsed URL has host `www.tiktok.com`, path `/video/<id>` and empty query. -/
theorem parse_canonical (i : String) (hd : ∀ c ∈ i.data, c.isDigit = true) :
    parseJsUrl ("https://www.tiktok.com/video/" ++ i) =
      some ⟨"www.tiktok.com", String.mk ("/video/".data ++ i.data), ""⟩ := by
  have hdata : ("https://www.tiktok.com/video/" ++ i).data =
      "https://www.tiktok.com/video/".data ++ i.data := by
    cases i; rfl
  have hpd : ∀ c ∈ i.data, notPathEnd c = true := fun c hc => digit_notPathEnd (hd c hc)
  simp only [parseJsUrl, hdata]
  rw [takeWhile_append_of_ne _ _ (by decide), dropWhile_append_of_ne _ _ (by decide)]
  rw [show "https://www.tiktok.com/video/".data.takeWhile (· ≠ ':') = "https".data
      from by decide]
  rw [show "https://www.tiktok.com/video/".data.dropWhile (· ≠ ':') =
      "://www.tiktok.com/video/".data from by decide]
  rw [if_neg (by
    rw [List.append_eq_nil]
    rintro ⟨h1, -⟩
    exact absurd h1 (by decide))]
  rw [if_pos (by decide : schemeOk "https".data = true)]
  rw [List.drop_append_of_le_length (by decide),
    show "://www.tiktok.com/video/".data.drop 1 = "//www.tiktok.com/video/".data
      from by decide]
  rw [if_pos (by
    rw [List.isPrefixOf_iff_prefix]
    exact (by decide : ['/', '/'] <+: "//www.tiktok.com/video/".data).trans
      (List.prefix_append _ _))]
  rw [List.drop_append_of_le_length (by decide),
    show "//www.tiktok.com/video/".data.drop 2 = "www.tiktok.com/video/".data
      from by decide]
  rw [takeWhile_append_of_ne _ _ (by decide), dropWhile_append_of_ne _ _ (by decide)]
  rw [show "www.tiktok.com/video/".data.takeWhile notAuthEnd = "www.tiktok.com".data
      from by decide]
  rw [show "www.tiktok.com/video/".data.dropWhile notAuthEnd = "/video/".data
      from by decide]
  rw [if_neg (by decide :
    ¬((afterLastAt "www.tiktok.com".data).takeWhile (· ≠ ':') = []))]
  rw [takeWhile_append_of_all _ _ (by decide), dropWhile_append_of_all _ _ (by decide)]
  rw [List.takeWhile_eq_self_iff.mpr hpd, List.dropWhile_eq_nil_iff.mpr hpd]
  rw [List.headD_nil, if_neg (by decide : ¬(('#' : Char) = '?'))]
  rw [show (afterLastAt "www.tiktok.com".data).takeWhile (· ≠ ':') =
      "www.tiktok.com".data from by decide]
  rw [show "www.tiktok.com".data.map Char.toLower = "www.tiktok.com".data
      from by decide]
  rw [if_neg (by simp : ¬("/video/".data ++ i.data = []))]
  rfl

/-- `findVideoDigits` at a position where `/video/` followed by digits starts
immediately. -/
theorem findVideoDigits_at_head (l : List Char)
    (h : "/video/".data.isPrefixOf l = true)
    (hds : (l.drop 7).takeWhile Char.isDigit ≠ []) :
    findVideoDigits l = some ((l.drop 7).takeWhile Char.isDigit) := by
  cases l with
  | nil => simp [List.isPrefixOf] at h
  | cons c rest =>
    simp only [findVideoDigits]
    rw [if_pos h, if_neg hds]

/-- The rewritten canonical URL passes the pass-through shape test whenever
the identifier is a non-empty digit string. -/
theorem canonical_shape_true (i : String) (hne : i.data ≠ [])
    (hd : ∀ c ∈ i.data, c.isDigit = true) :
    isCanonicalShape ⟨"www.tiktok.com", String.mk ("/video/".data ++ i.data), ""⟩ =
      true := by
  have hpf : "/video/".data.isPrefixOf ("/video/".data ++ i.data) = true := by
    rw [List.isPrefixOf_iff_prefix]
    exact List.prefix_append _ _
  have hdrop : ("/video/".data ++ i.data).drop 7 = i.data := by
    have := List.drop_left "/video/".data i.data
    rwa [show "/video/".data.length = 7 from by decide] at this
  have htake : i.data.takeWhile Char.isDigit = i.data :=
    List.takeWhile_eq_self_iff.mpr hd
  have h2 : pathVideoTest (String.mk ("/video/".data ++ i.data)) = true := by
    rw [pathVideoTest]
    rw [show (String.mk ("/video/".data ++ i.data)).data =
      "/video/".data ++ i.data from rfl]
    rw [findVideoDigits_at_head _ hpf (by rw [hdrop, htake]; exact hne)]
    rfl
  rw [isCanonicalShape, h2]
  rw [show tiktokHostTest "www.tiktok.com" = true from by decide]
  rfl

/-- The canonical rewrite output is a fixed point of normalization when the
identifier is a non-empty digit string. -/
theorem normalize_canonical_fixed (i : String) (hne : i.data ≠ [])
    (hd : ∀ c ∈ i.data, c.isDigit = true) :
    normalizeTikTokUrl ("https://www.tiktok.com/video/" ++ i) =
      "https://www.tiktok.com/video/" ++ i := by
  have hc := canonical_shape_true i hne hd
  simp only [normalizeTikTokUrl, parse_canonical i hd]
  simp only [List.cons_append, List.nil_append] at hc
  simp [hc]

/-- The JS truthy-chain helper never returns the empty string. -/
theorem firstTruthy_ne :
    ∀ (l : List (Option String)) (s : String), firstTruthy l = some s → s ≠ "" := by
  intro l
  induction l with
  | nil => intro s h; simp [firstTruthy] at h
  | cons o rest ih =>
    intro s h
    match o with
    | none => exact ih s (by simpa [firstTruthy] using h)
    | some v =>
      rw [firstTruthy] at h
      by_cases hv : v = ""
      · exact ih s (by rwa [if_pos hv] at h)
      · rw [if_neg hv] at h
        cases h
        exact hv


theorem string_ne_empty_data {i : String} (h : i ≠ "") : i.data ≠ [] := by
  intro hd
  apply h
  cases i with
  | mk d =>
    have : d = [] := hd
    rw [this]

set_option maxRecDepth 40000 in
/-- C10 counterexample: one percent-encoding level of nesting defeats
idempotency — the first pass rewrites to a URL whose `video_id` query
parameter still holds an identifier, so a second pass rewrites again. -/
theorem C10_counterexample :
    normalizeTikTokUrl
        (normalizeTikTokUrl "https://example.com/?video_id=abc%3Fvideo_id%3D5") ≠
      normalizeTikTokUrl "https://example.com/?video_id=abc%3Fvideo_id%3D5" := by
  decide

/-- C10 amended: normalization is idempotent on every input it leaves
unchanged, and on every input whose rewrite uses a purely numeric identifier
(in particular whenever the identifier comes from the path segment or the
raw-query fallback, which only match digits); only a rewrite driven by a
non-numeric query-parameter value can fail to be a fixed point. -/
theorem C10_idem_amended :
    ∀ s : String,
      (normalizeTikTokUrl s = s →
        normalizeTikTokUrl (normalizeTikTokUrl s) = normalizeTikTokUrl s) ∧
      (∀ u i, parseJsUrl s = some u → isCanonicalShape u = false → idOf u = some i →
        (∀ c ∈ i.data, c.isDigit = true) →
        normalizeTikTokUrl (normalizeTikTokUrl s) = normalizeTikTokUrl s) := by
  intro s
  constructor
  · intro h
    rw [h]
    exact h
  · intro u i hp hc hi hdig
    have hrw : normalizeTikTokUrl s = "https://www.tiktok.com/video/" ++ i := by
      simp [normalizeTikTokUrl, hp, hc, hi]
    rw [idOf] at hi
    rw [hrw]
    exact normalize_canonical_fixed i
      (string_ne_empty_data (firstTruthy_ne _ _ hi)) hdig

/-- Witness for C10: a numeric `video_id` rewrite is a fixed point. -/
theorem C10_witness :
    normalizeTikTokUrl (normalizeTikTokUrl "https://example.com/watch?video_id=777") =
      normalizeTikTokUrl "https://example.com/watch?video_id=777" :=
  (C10_idem_amended _).2 ⟨"example.com", "/watch", "?video_id=777"⟩ "777" rfl rfl rfl
    (by decide)
